import Mathlib

/-!
Shallow embedding of the nameserver-switcher DNS policy router.

The Go sources embedded here:
  * `internal/matcher` (RegexMatcher: Match, MatchingPattern, Patterns,
    UpdatePatterns; NewRegexMatcher-style compilation loop),
  * `internal/resolver/router.go` (the newer Router with the five resolver
    slots: Route and its helper functions),
  * `internal/resolver/resolver.go` (SystemResolver.Resolve, ExtractCNAME,
    HasCNAME),
  * the DNS transport handler (`handleRequest`) and the RPC-framed
    `Server.Query` operation.

External collaborators (the Go regexp engine, the miekg/dns wire
codec and its message constructors, the network exchange) are not code of
this repository; they enter the embedding as explicit function parameters
(`compile`, `pack`, `unpack`, `exchange`) or as small models of their
documented behaviour (`Msg.setRcode`).

Machine integers: DNS transaction ids are 16-bit on the wire; the router
and the transports only ever copy them, so they are modelled as `Nat`.
-/

namespace NSS

/-- Go strings.TrimSuffix: remove one occurrence of the suffix, if present.
Modelled on the character list of the string (for the suffixes used here,
ASCII ".", byte- and character-level trimming coincide). -/
def trimSuffix (s suff : String) : String :=
  if suff.data.isSuffixOf s.data then
    String.mk (s.data.take (s.data.length - suff.data.length))
  else s

/-- Go strings.TrimSpace: drop whitespace from both ends, modelled on
the character list of the string. -/
def trimSpace (s : String) : String :=
  String.mk (((s.data.dropWhile Char.isWhitespace).reverse.dropWhile
    Char.isWhitespace).reverse)

/-- A DNS question: the router only ever reads the name and the type. -/
structure Question where
  name : String
  qtype : Nat
  deriving DecidableEq, Repr

/-- An answer-section resource record, as far as the router inspects it:
a CNAME with its target, or any other record. -/
inductive RR where
  | cname (target : String)
  | other
  deriving DecidableEq, Repr

/-- A decoded DNS message (the fields this codebase reads or writes). -/
structure Msg where
  id : Nat
  response : Bool
  opcode : Nat
  rcode : Nat
  recursionDesired : Bool
  question : List Question
  answer : List RR
  deriving DecidableEq, Repr

/-- dns.RcodeServerFailure. -/
def RcodeServerFailure : Nat := 2

/-- Models miekg/dns `(&dns.Msg{}).SetRcode(req, rc)` (external library,
from its documented behaviour): id copied from the request, response bit
set, opcode reset to query, rd copied for query opcodes, first question
mirrored, empty answer. -/
def Msg.setRcode (req : Msg) (rc : Nat) : Msg :=
  { id := req.id
    response := true
    opcode := 0
    rcode := rc
    recursionDesired := if req.opcode = 0 then req.recursionDesired else false
    question := match req.question with
      | [] => []
      | q :: _ => [q]
    answer := [] }

/-! ## Pattern matcher (`internal/matcher`) -/

/-- A compiled Go regular expression, abstracted to its matching function
(the regexp engine is the Go standard library, not repository code). -/
structure Regexp where
  MatchString : String → Bool

/-- The matcher.Matcher interface as the router consumes it. -/
structure Matcher where
  Match : String → Bool
  MatchingPattern : String → String

/-- RegexMatcher: compiled patterns paired with their source strings. -/
structure RegexMatcher where
  patterns : List Regexp
  raw : List String

/-- RegexMatcher.Match: strip one trailing dot, then scan the compiled
patterns in order. -/
def RegexMatcher.Match (m : RegexMatcher) (domain : String) : Bool :=
  let domain := trimSuffix domain "."
  m.patterns.any fun p => p.MatchString domain

/-- Walk patterns and raw sources in lockstep, returning the source string
of the first compiled pattern that matches (loop body of
RegexMatcher.MatchingPattern). -/
def firstMatchingRaw (domain : String) : List Regexp → List String → String
  | p :: ps, r :: rs =>
    if p.MatchString domain then r else firstMatchingRaw domain ps rs
  | _, _ => ""

/-- RegexMatcher.MatchingPattern: strip one trailing dot, then return the
source string of the first matching pattern, or the empty string. -/
def RegexMatcher.MatchingPattern (m : RegexMatcher) (domain : String) : String :=
  let domain := trimSuffix domain "."
  firstMatchingRaw domain m.patterns m.raw

/-- RegexMatcher.Patterns: snapshot of the raw source strings. -/
def RegexMatcher.Patterns (m : RegexMatcher) : List String :=
  m.raw

/-- Matcher construction / update errors (`fmt.Errorf("invalid regex
pattern %q: %w", p, err)`): the offending source string and the
compilation error. -/
inductive MatcherError where
  | invalidPattern (src : String) (msg : String)
  deriving DecidableEq, Repr

/-- The compilation loop shared by NewRegexMatcher and UpdatePatterns:
trim whitespace, drop empties, compile each survivor; fail on the first
compilation error, naming the offending source string. `compile` is the
Go regexp.Compile of the standard library, passed in as a parameter. -/
def compileAll (compile : String → Except String Regexp) :
    List String → Except MatcherError (List Regexp × List String)
  | [] => .ok ([], [])
  | p :: rest =>
    let p := trimSpace p
    if p = "" then compileAll compile rest
    else
      match compile p with
      | .error e => .error (.invalidPattern p e)
      | .ok c =>
        match compileAll compile rest with
        | .error e => .error e
        | .ok (cs, rs) => .ok (c :: cs, p :: rs)

/-- RegexMatcher.UpdatePatterns: compile everything into scratch buffers;
on any failure return the error and leave the matcher untouched; on
success replace both lists. The returned matcher is the post-call state. -/
def RegexMatcher.UpdatePatterns (compile : String → Except String Regexp)
    (m : RegexMatcher) (ps : List String) :
    Except MatcherError Unit × RegexMatcher :=
  match compileAll compile ps with
  | .error e => (.error e, m)
  | .ok (cs, rs) => (.ok (), ⟨cs, rs⟩)

/-- The source strings that survive trimming and empty-filtering, in
order: the raw list a successful update installs. -/
def cleanPatterns (ps : List String) : List String :=
  (ps.map trimSpace).filter fun p => p ≠ ""

/-! ## Resolvers (`internal/resolver/resolver.go`) -/

/-- The resolver.Resolver interface as the router consumes it: a resolve
function (the network I/O collapsed to a function of the request) and a
display name. -/
structure Resolver where
  resolve : Msg → Except String Msg
  name : String

/-- ExtractCNAME: the CNAME targets of the answer section, in order. -/
def ExtractCNAME (resp : Msg) : List String :=
  resp.answer.filterMap fun rr =>
    match rr with
    | .cname t => some t
    | .other => none

/-- HasCNAME: does the answer section contain a CNAME record. -/
def HasCNAME (resp : Msg) : Bool :=
  resp.answer.any fun rr =>
    match rr with
    | .cname _ => true
    | .other => false

/-- SystemResolver: an ordered list of server addresses. -/
structure SystemResolver where
  servers : List String

/-- The two failure shapes of SystemResolver.Resolve: every server
errored (wrapping the last error), or the server list was empty. -/
inductive SysError where
  | allFailed (last : String)
  | noServers
  deriving DecidableEq, Repr

/-- The server loop of SystemResolver.Resolve: try each server in order
with the shared request copy; a success returns immediately; an error is
remembered in `lastErr` and the loop continues. -/
def systemTry (exchange : Msg → String → Except String Msg) (reqCopy : Msg) :
    List String → Option String → Except SysError Msg
  | [], none => .error .noServers
  | [], some e => .error (.allFailed e)
  | s :: rest, lastErr =>
    match exchange reqCopy s with
    | .error e => systemTry exchange reqCopy rest (some e)
    | .ok resp =>
      let _ := lastErr
      .ok resp

/-- SystemResolver.Resolve: copy the request, force recursion desired,
then try the servers in order. `exchange` is the dns.Client exchange of
the miekg/dns library, passed in as a parameter. -/
def SystemResolver.Resolve (exchange : Msg → String → Except String Msg)
    (r : SystemResolver) (req : Msg) : Except SysError Msg :=
  systemTry exchange { req with recursionDesired := true } r.servers none

/-! ## Router (`internal/resolver/router.go`, newer five-slot version) -/

/-- Router: the two matchers and four resolver slots, any of which may be
absent. -/
structure Router where
  requestMatcher : Option Matcher
  cnameMatcher : Option Matcher
  explicitResolver : Option Resolver
  passthroughResolver : Option Resolver
  noCnameResponseResolver : Option Resolver
  noCnameMatchResolver : Option Resolver

/-- RouterConfig, including the deprecated legacy SystemResolver slot. -/
structure RouterConfig where
  RequestMatcher : Option Matcher
  CNAMEMatcher : Option Matcher
  ExplicitResolver : Option Resolver
  PassthroughResolver : Option Resolver
  NoCnameResponseResolver : Option Resolver
  NoCnameMatchResolver : Option Resolver
  SystemResolver : Option Resolver

/-- NewRouter: the legacy SystemResolver fills each of the passthrough,
no-cname-response and no-cname-match slots that were left empty. -/
def NewRouter (cfg : RouterConfig) : Router :=
  { requestMatcher := cfg.RequestMatcher
    cnameMatcher := cfg.CNAMEMatcher
    explicitResolver := cfg.ExplicitResolver
    passthroughResolver :=
      match cfg.PassthroughResolver with
      | none => cfg.SystemResolver
      | some p => some p
    noCnameResponseResolver :=
      match cfg.NoCnameResponseResolver with
      | none => cfg.SystemResolver
      | some p => some p
    noCnameMatchResolver :=
      match cfg.NoCnameMatchResolver with
      | none => cfg.SystemResolver
      | some p => some p }

/-- RouteResult. -/
structure RouteResult where
  Response : Msg
  ResolverUsed : String
  RequestMatched : Bool
  CNAMEMatched : Bool
  MatchedPattern : String
  CNAMEPattern : String
  deriving DecidableEq, Repr

/-- The scalar fields of the in-progress RouteResult (the Go code zeroes
a RouteResult and mutates these four fields before the response is
known). -/
structure Flags where
  RequestMatched : Bool
  CNAMEMatched : Bool
  MatchedPattern : String
  CNAMEPattern : String
  deriving DecidableEq, Repr

/-- The zero RouteResult the Go code starts from. -/
def initFlags : Flags := ⟨false, false, "", ""⟩

/-- Assemble the returned RouteResult from the accumulated flags, the
chosen response and the display name of the resolver that produced it. -/
def mkResult (flags : Flags) (resp : Msg) (used : String) : RouteResult :=
  { Response := resp
    ResolverUsed := used
    RequestMatched := flags.RequestMatched
    CNAMEMatched := flags.CNAMEMatched
    MatchedPattern := flags.MatchedPattern
    CNAMEPattern := flags.CNAMEPattern }

/-- The distinct fmt.Errorf error returns of Route and its helpers. -/
inductive RouteError where
  | noQuestion
  | explicitFailed (e : String)
  | noCnameMatchFailed (e : String)
  | noCnameResponseFailed (e : String)
  | passthroughFailed (e : String)
  | noResolverForMatched
  | noResolverAvailable
  deriving DecidableEq, Repr

/-- One upstream invocation performed during a Route call: which slot was
called and with which request. The embedding returns the list of
invocations in call order next to the result. -/
inductive Call where
  | explicitCall (req : Msg)
  | passthroughCall (req : Msg)
  | noCnameResponseCall (req : Msg)
  | noCnameMatchCall (req : Msg)
  deriving DecidableEq, Repr

/-- Recognise an invocation of the explicit resolver. -/
def isExplicitCall : Call → Bool
  | .explicitCall _ => true
  | _ => false

/-- Recognise an invocation of the passthrough resolver. -/
def isPassthroughCall : Call → Bool
  | .passthroughCall _ => true
  | _ => false

/-- The result of a Route call together with its upstream invocation
log. -/
abbrev RouteOut := Except RouteError RouteResult × List Call

/-- shouldUseRequestMatcher: the request matcher exists and matches. -/
def shouldUseRequestMatcher (r : Router) (qname : String) : Bool :=
  match r.requestMatcher with
  | none => false
  | some m => m.Match qname

/-- useNoCnameResponseResolver. -/
def useNoCnameResponseResolver (r : Router) (req : Msg) (flags : Flags) : RouteOut :=
  match r.noCnameResponseResolver with
  | none => (.error .noResolverForMatched, [])
  | some res =>
    match res.resolve req with
    | .error e => (.error (.noCnameResponseFailed e), [.noCnameResponseCall req])
    | .ok resp => (.ok (mkResult flags resp res.name), [.noCnameResponseCall req])

/-- useNoCnameMatchResolver. -/
def useNoCnameMatchResolver (r : Router) (req : Msg) (flags : Flags) : RouteOut :=
  match r.noCnameMatchResolver with
  | none => (.error .noResolverForMatched, [])
  | some res =>
    match res.resolve req with
    | .error e => (.error (.noCnameMatchFailed e), [.noCnameMatchCall req])
    | .ok resp => (.ok (mkResult flags resp res.name), [.noCnameMatchCall req])

/-- useFallbackResolver: delegates to useNoCnameResponseResolver. -/
def useFallbackResolver (r : Router) (req : Msg) (flags : Flags) : RouteOut :=
  useNoCnameResponseResolver r req flags

/-- routePassthrough. -/
def routePassthrough (r : Router) (req : Msg) (flags : Flags) : RouteOut :=
  match r.passthroughResolver with
  | none => (.error .noResolverAvailable, [])
  | some res =>
    match res.resolve req with
    | .error e => (.error (.passthroughFailed e), [.passthroughCall req])
    | .ok resp => (.ok (mkResult flags resp res.name), [.passthroughCall req])

/-- The CNAME scanning loop of processCNAMEMatch: dot-strip each target
in answer order and return the first (stripped) target the CNAME matcher
accepts. -/
def findMatchingCNAME (cm : Matcher) : List String → Option String
  | [] => none
  | c :: rest =>
    let c := trimSuffix c "."
    if cm.Match c then some c else findMatchingCNAME cm rest

/-- handleMatchedCNAME: record the CNAME match and re-invoke the explicit
resolver with the original request. (The Go method re-reads the
router's explicit-resolver field, whose non-nilness its caller already
established on the immutable router; the resolver is passed here
directly.) -/
def handleMatchedCNAME (ex : Resolver) (cm : Matcher) (req : Msg)
    (cname : String) (flags : Flags) : RouteOut :=
  let flags := { flags with CNAMEMatched := true, CNAMEPattern := cm.MatchingPattern cname }
  match ex.resolve req with
  | .error e => (.error (.explicitFailed e), [.explicitCall req])
  | .ok resp => (.ok (mkResult flags resp ex.name), [.explicitCall req])

/-- processCNAMEMatch: scan the CNAME targets; on a match, handle it; if
none matches, use the no-cname-match resolver. -/
def processCNAMEMatch (r : Router) (ex : Resolver) (cm : Matcher)
    (req resp : Msg) (flags : Flags) : RouteOut :=
  match findMatchingCNAME cm (ExtractCNAME resp) with
  | some c => handleMatchedCNAME ex cm req c flags
  | none => useNoCnameMatchResolver r req flags

/-- processExplicitResponse: no CNAME in the answer, or no CNAME matcher,
goes to the no-cname-response resolver; otherwise scan the CNAMEs. -/
def processExplicitResponse (r : Router) (ex : Resolver) (req resp : Msg)
    (flags : Flags) : RouteOut :=
  if ¬ HasCNAME resp then useNoCnameResponseResolver r req flags
  else
    match r.cnameMatcher with
    | none => useNoCnameResponseResolver r req flags
    | some cm => processCNAMEMatch r ex cm req resp flags

/-- routeMatchedRequest: record the request match; without an explicit
resolver fall back, otherwise query the explicit resolver and process its
response. -/
def routeMatchedRequest (r : Router) (req : Msg) (qname : String)
    (flags : Flags) : RouteOut :=
  let flags := { flags with
    RequestMatched := true
    MatchedPattern :=
      match r.requestMatcher with
      | some m => m.MatchingPattern qname
      | none => "" }
  match r.explicitResolver with
  | none => useFallbackResolver r req flags
  | some ex =>
    match ex.resolve req with
    | .error e => (.error (.explicitFailed e), [.explicitCall req])
    | .ok resp =>
      let out := processExplicitResponse r ex req resp flags
      (out.1, .explicitCall req :: out.2)

/-- Router.Route: reject questionless requests, dot-strip the first
question's name, then dispatch on the request matcher. -/
def Router.Route (r : Router) (req : Msg) : RouteOut :=
  match req.question with
  | [] => (.error .noQuestion, [])
  | q :: _ =>
    let qname := trimSuffix q.name "."
    if shouldUseRequestMatcher r qname then
      routeMatchedRequest r req qname initFlags
    else
      routePassthrough r req initFlags

/-! ## Datagram/stream transport handler (`handleRequest`) -/

/-- The reply message `handleRequest` writes for a request: a fresh
SERVFAIL built with SetRcode when routing errors, otherwise the routed
response with its id overwritten by the request id. (Metrics and logging
have no effect on the reply.) -/
def handleRequestReply (r : Router) (req : Msg) : Msg :=
  match (Router.Route r req).1 with
  | .error _ => Msg.setRcode req RcodeServerFailure
  | .ok result => { result.Response with id := req.id }

/-! ## RPC-framed transport (`Server.Query`) -/

/-- Wire bytes. -/
abbrev Wire := List Nat

/-- `packed, _ := reply.Pack()`: the Go code ignores the error of packing
a SERVFAIL reply and sends whatever bytes came back (nil on failure). -/
def packOrNil (pack : Msg → Except String Wire) (m : Msg) : Wire :=
  match pack m with
  | .ok w => w
  | .error _ => []

/-- The part of Server.Query after a successful decode: when a router is
present and the message has a question, route it — a routing error
becomes a packed SERVFAIL reply, a routed response is re-packed with the
request id (packing failure is an RPC error). Without a router or a
question, a packed SERVFAIL reply is returned. -/
def serverQueryDecoded (pack : Msg → Except String Wire) (ro : Option Router)
    (msg : Msg) : Except String Wire :=
  match ro with
  | none => .ok (packOrNil pack (Msg.setRcode msg RcodeServerFailure))
  | some r =>
    match msg.question with
    | [] => .ok (packOrNil pack (Msg.setRcode msg RcodeServerFailure))
    | _ :: _ =>
      match (Router.Route r msg).1 with
      | .error _ => .ok (packOrNil pack (Msg.setRcode msg RcodeServerFailure))
      | .ok result =>
        match pack { result.Response with id := msg.id } with
        | .error e => .error ("failed to pack DNS response: " ++ e)
        | .ok packed => .ok packed

/-- Server.Query of the gRPC CoreDNS service: unpack the payload (failure
is an RPC error), then serverQueryDecoded. `unpack`/`pack` are the
miekg/dns wire codec, passed in as parameters. -/
def ServerQuery (unpack : Wire → Except String Msg)
    (pack : Msg → Except String Wire) (ro : Option Router)
    (payload : Wire) : Except String Wire :=
  match unpack payload with
  | .error e => .error ("failed to unpack DNS message: " ++ e)
  | .ok msg => serverQueryDecoded pack ro msg

/-! ## Concrete fixtures (used by witnesses and counterexamples) -/

/-- A concrete A question for `www.example.com.`. -/
def fxQ : Question := ⟨"www.example.com.", 1⟩

/-- A concrete request. -/
def fxReq : Msg := ⟨7, false, 0, 0, false, [fxQ], []⟩

/-- An upstream answer whose second record is a CNAME to
`cdn.provider.net.`. -/
def fxRespC : Msg := ⟨9, true, 0, 0, false, [fxQ], [.other, .cname "cdn.provider.net."]⟩

/-- An upstream answer with no CNAME record. -/
def fxRespA : Msg := ⟨9, true, 0, 0, false, [fxQ], [.other]⟩

/-- An upstream answer whose only CNAME points at `other.net.`. -/
def fxRespOther : Msg := ⟨9, true, 0, 0, false, [fxQ], [.cname "other.net."]⟩

/-- A request matcher behaving like the (case-sensitive) Go regex
`^www\.example\.com$`. -/
def fxReqMatcher : Matcher :=
  ⟨fun s => s == "www.example.com",
   fun s => if s == "www.example.com" then "req-pat" else ""⟩

/-- A CNAME matcher behaving like the Go regex `^cdn\.provider\.net$`. -/
def fxCnameMatcher : Matcher :=
  ⟨fun s => s == "cdn.provider.net",
   fun s => if s == "cdn.provider.net" then "cname-pat" else ""⟩

/-- An explicit resolver whose answer carries the matching CNAME. -/
def fxExplicit : Resolver := ⟨fun _ => .ok fxRespC, "explicit"⟩

/-- An explicit resolver whose answer carries no CNAME. -/
def fxExplicitNoC : Resolver := ⟨fun _ => .ok fxRespA, "explicit"⟩

/-- The passthrough resolver fixture. -/
def fxPassthrough : Resolver := ⟨fun _ => .ok fxRespA, "passthrough"⟩

/-- The no-cname-response resolver fixture. -/
def fxNoCnameResponse : Resolver := ⟨fun _ => .ok fxRespA, "no-cname-response"⟩

/-- The no-cname-match resolver fixture. -/
def fxNoCnameMatch : Resolver := ⟨fun _ => .ok fxRespA, "no-cname-match"⟩

/-- A fully populated router whose explicit answer has a matching
CNAME. -/
def fxRouter1 : Router :=
  ⟨some fxReqMatcher, some fxCnameMatcher, some fxExplicit,
   some fxPassthrough, some fxNoCnameResponse, some fxNoCnameMatch⟩

/-- As fxRouter1 but the explicit answer has no CNAME. -/
def fxRouter2 : Router :=
  ⟨some fxReqMatcher, some fxCnameMatcher, some fxExplicitNoC,
   some fxPassthrough, some fxNoCnameResponse, some fxNoCnameMatch⟩

/-- A router with no explicit resolver. -/
def fxRouter3 : Router :=
  ⟨some fxReqMatcher, some fxCnameMatcher, none,
   some fxPassthrough, some fxNoCnameResponse, some fxNoCnameMatch⟩

/-- A config with only a request matcher and a passthrough resolver: no
explicit, no no-cname slots, no legacy system resolver. -/
def fxCfgBare : RouterConfig :=
  ⟨some fxReqMatcher, none, none, some fxPassthrough, none, none, none⟩

/-- The same request with the name upcased: `WWW.example.com.`. -/
def fxReqUpper : Msg := ⟨7, false, 0, 0, false, [⟨"WWW.example.com.", 1⟩], []⟩

/-- A model regexp compiler: rejects exactly the pattern `[bad`. -/
def fxCompile (s : String) : Except String Regexp :=
  if s == "[bad" then .error "missing closing bracket" else .ok ⟨fun t => t == s⟩

/-- A matcher holding one previously compiled pattern. -/
def fxMatcher0 : RegexMatcher := ⟨[⟨fun t => t == "old"⟩], ["old-pat"]⟩

/-- A single-pattern matcher equivalent to the Go regex `^a$`. -/
def fxMatcherA : RegexMatcher := ⟨[⟨fun t => t == "a"⟩], ["pat-a"]⟩

/-- A model network: the second server answers, the others fail. -/
def fxExchange (_ : Msg) (s : String) : Except String Msg :=
  if s == "10.0.0.2:53" then .ok fxRespA
  else if s == "10.0.0.1:53" then .error "timeout1"
  else .error "timeout3"

/-- Three servers; only the middle one answers. -/
def fxSys : SystemResolver := ⟨["10.0.0.1:53", "10.0.0.2:53", "10.0.0.3:53"]⟩

/-- Two servers that both fail under fxExchange. -/
def fxSysBad : SystemResolver := ⟨["10.0.0.1:53", "10.0.0.9:53"]⟩

/-- An unpack fixture that decodes every payload to fxReq. -/
def fxUnpack (_ : Wire) : Except String Msg := .ok fxReq

/-- A pack fixture that always fails. -/
def fxPackFail (_ : Msg) : Except String Wire := .error "too long"

/-- A pack fixture that always succeeds, emitting the message id. -/
def fxPackOk (m : Msg) : Except String Wire := .ok [m.id]

/-! ## Helper lemmas -/

/-- Appending a dot and trimming it again is the identity. -/
theorem trimSuffix_append_dot (d : String) : trimSuffix (d ++ ".") "." = d := by
  have h1 : (".").data = ['.'] := rfl
  have h2 : (d ++ ".").data = d.data ++ ['.'] := rfl
  rw [trimSuffix, h1, h2]
  rw [if_pos (by simp [List.isSuffixOf, List.isPrefixOf])]
  simp

/-- Trimming is the identity on a string that does not end in a dot. -/
theorem trimSuffix_no_dot (d : String) (h : (".").data.isSuffixOf d.data = false) :
    trimSuffix d "." = d := by
  rw [trimSuffix, if_neg (by simp [h])]

/-- A CNAME-free answer has no extracted CNAME targets. -/
theorem extractCNAME_eq_nil {resp : Msg} (h : HasCNAME resp = false) :
    ExtractCNAME resp = [] := by
  revert h
  unfold HasCNAME ExtractCNAME
  generalize resp.answer = l
  induction l with
  | nil => intro _; rfl
  | cons rr rest ih => intro h; cases rr <;> simp_all

/-- If the CNAME scan found a match, the answer contained a CNAME. -/
theorem hasCNAME_of_find {cm : Matcher} {resp : Msg} {c : String}
    (h : findMatchingCNAME cm (ExtractCNAME resp) = some c) :
    HasCNAME resp = true := by
  cases hH : HasCNAME resp
  · rw [extractCNAME_eq_nil hH] at h
    simp [findMatchingCNAME] at h
  · rfl

/-- A successful useNoCnameResponseResolver keeps the accumulated
flags. -/
theorem useNCR_ok {r : Router} {req : Msg} {flags : Flags} {res : RouteResult}
    (h : (useNoCnameResponseResolver r req flags).1 = .ok res) :
    res.RequestMatched = flags.RequestMatched ∧ res.CNAMEMatched = flags.CNAMEMatched := by
  unfold useNoCnameResponseResolver at h
  split at h
  · simp at h
  · split at h <;> simp_all [mkResult]
    subst h
    exact ⟨rfl, rfl⟩

/-- A successful useNoCnameMatchResolver keeps the accumulated flags. -/
theorem useNCM_ok {r : Router} {req : Msg} {flags : Flags} {res : RouteResult}
    (h : (useNoCnameMatchResolver r req flags).1 = .ok res) :
    res.RequestMatched = flags.RequestMatched ∧ res.CNAMEMatched = flags.CNAMEMatched := by
  unfold useNoCnameMatchResolver at h
  split at h
  · simp at h
  · split at h <;> simp_all [mkResult]
    subst h
    exact ⟨rfl, rfl⟩

/-- A successful handleMatchedCNAME keeps the request flag and sets the
CNAME flag. -/
theorem handleMC_ok {ex : Resolver} {cm : Matcher} {req : Msg} {c : String}
    {flags : Flags} {res : RouteResult}
    (h : (handleMatchedCNAME ex cm req c flags).1 = .ok res) :
    res.RequestMatched = flags.RequestMatched ∧ res.CNAMEMatched = true := by
  unfold handleMatchedCNAME at h
  split at h <;> simp_all [mkResult]
  subst h
  exact ⟨rfl, rfl⟩

/-- A successful processExplicitResponse keeps the request flag. -/
theorem processER_ok {r : Router} {ex : Resolver} {req resp : Msg}
    {flags : Flags} {res : RouteResult}
    (h : (processExplicitResponse r ex req resp flags).1 = .ok res) :
    res.RequestMatched = flags.RequestMatched := by
  unfold processExplicitResponse at h
  split at h
  · exact (useNCR_ok h).1
  · split at h
    · exact (useNCR_ok h).1
    · unfold processCNAMEMatch at h
      split at h
      · exact (handleMC_ok h).1
      · exact (useNCM_ok h).1

/-- A successful routeMatchedRequest reports the request as matched. -/
theorem routeMR_ok {r : Router} {req : Msg} {qname : String}
    {flags : Flags} {res : RouteResult}
    (h : (routeMatchedRequest r req qname flags).1 = .ok res) :
    res.RequestMatched = true := by
  unfold routeMatchedRequest at h
  rcases hex : r.explicitResolver with _ | ex <;> simp only [hex] at h
  · exact (useNCR_ok h).1
  · rcases hres : ex.resolve req with e | resp <;> simp only [hres] at h
    · simp at h
    · exact processER_ok h

/-- A successful routePassthrough reports neither flag. -/
theorem routePT_ok {r : Router} {req : Msg} {res : RouteResult}
    (h : (routePassthrough r req initFlags).1 = .ok res) :
    res.RequestMatched = false ∧ res.CNAMEMatched = false := by
  unfold routePassthrough at h
  split at h
  · simp at h
  · split at h <;> simp_all [mkResult, initFlags]
    subst h
    exact ⟨rfl, rfl⟩

/-- useNoCnameResponseResolver never invokes the explicit resolver. -/
theorem ncrLog (r : Router) (req : Msg) (flags : Flags) :
    ((useNoCnameResponseResolver r req flags).2.countP isExplicitCall) = 0 := by
  rcases h : r.noCnameResponseResolver with _ | res
  · simp [useNoCnameResponseResolver, h]
  · rcases h2 : res.resolve req with e | resp <;>
      simp [useNoCnameResponseResolver, h, h2, isExplicitCall,
        List.countP_cons, List.countP_nil]

/-- useNoCnameMatchResolver never invokes the explicit resolver. -/
theorem ncmLog (r : Router) (req : Msg) (flags : Flags) :
    ((useNoCnameMatchResolver r req flags).2.countP isExplicitCall) = 0 := by
  rcases h : r.noCnameMatchResolver with _ | res
  · simp [useNoCnameMatchResolver, h]
  · rcases h2 : res.resolve req with e | resp <;>
      simp [useNoCnameMatchResolver, h, h2, isExplicitCall,
        List.countP_cons, List.countP_nil]

/-- routePassthrough never invokes the explicit resolver. -/
theorem ptLog (r : Router) (req : Msg) (flags : Flags) :
    ((routePassthrough r req flags).2.countP isExplicitCall) = 0 := by
  rcases h : r.passthroughResolver with _ | res
  · simp [routePassthrough, h]
  · rcases h2 : res.resolve req with e | resp <;>
      simp [routePassthrough, h, h2, isExplicitCall,
        List.countP_cons, List.countP_nil]

/-- handleMatchedCNAME invokes the explicit resolver exactly once. -/
theorem hmcLog (ex : Resolver) (cm : Matcher) (req : Msg) (c : String) (flags : Flags) :
    ((handleMatchedCNAME ex cm req c flags).2.countP isExplicitCall) = 1 := by
  rcases h2 : ex.resolve req with e | resp <;>
    simp [handleMatchedCNAME, h2, isExplicitCall,
      List.countP_cons, List.countP_nil]

/-- processExplicitResponse invokes the explicit resolver at most once. -/
theorem perLog (r : Router) (ex : Resolver) (req resp : Msg) (flags : Flags) :
    ((processExplicitResponse r ex req resp flags).2.countP isExplicitCall) ≤ 1 := by
  unfold processExplicitResponse
  split
  · rw [ncrLog]; exact Nat.zero_le 1
  · split
    · rw [ncrLog]; exact Nat.zero_le 1
    · unfold processCNAMEMatch
      split
      · rw [hmcLog]
      · rw [ncmLog]; exact Nat.zero_le 1

/-- routeMatchedRequest invokes the explicit resolver at most twice. -/
theorem rmrLog (r : Router) (req : Msg) (qname : String) (flags : Flags) :
    ((routeMatchedRequest r req qname flags).2.countP isExplicitCall) ≤ 2 := by
  unfold routeMatchedRequest
  rcases hex : r.explicitResolver with _ | ex <;> simp only [hex]
  · unfold useFallbackResolver
    rw [ncrLog]; exact Nat.zero_le 2
  · rcases hres : ex.resolve req with e | resp <;> simp only [hres]
    · simp [isExplicitCall, List.countP_cons, List.countP_nil]
    · simp only [List.countP_cons, isExplicitCall, List.countP_nil]
      have h1 := perLog r ex req resp
      exact Nat.succ_le_succ (h1 _)

/-- Route invokes the explicit resolver at most twice. -/
theorem routeLog (r : Router) (req : Msg) :
    ((Router.Route r req).2.countP isExplicitCall) ≤ 2 := by
  unfold Router.Route
  split
  · simp
  · simp only
    split
    · exact rmrLog r _ _ _
    · rw [ptLog]; exact Nat.zero_le 2

/-- With a CNAME-free answer or an absent CNAME matcher,
processExplicitResponse delegates to the no-cname-response resolver. -/
theorem perNoCname {r : Router} {ex : Resolver} {req resp : Msg} {flags : Flags}
    (hnc : HasCNAME resp = false ∨ r.cnameMatcher = none) :
    processExplicitResponse r ex req resp flags =
      useNoCnameResponseResolver r req flags := by
  unfold processExplicitResponse
  rcases hnc with hnc | hnc
  · rw [hnc]; simp
  · cases hH : HasCNAME resp <;> simp [hH, hnc]

/-- A compileAll failure names a surviving (trimmed, non-empty) input
pattern on which the compiler failed with exactly the reported error. -/
theorem compileAll_error {compile : String → Except String Regexp} :
    ∀ {ps : List String} {src msg : String},
      compileAll compile ps = .error (.invalidPattern src msg) →
      compile src = .error msg ∧ src ∈ cleanPatterns ps := by
  intro ps
  induction ps with
  | nil => intro src msg h; simp [compileAll] at h
  | cons p rest ih =>
    intro src msg h
    unfold compileAll at h
    by_cases hp : trimSpace p = ""
    · rw [if_pos hp] at h
      have h2 := ih h
      refine ⟨h2.1, ?_⟩
      simp [cleanPatterns, hp] at h2 ⊢
      exact h2.2
    · rw [if_neg hp] at h
      rcases hc : compile (trimSpace p) with e | c <;> rw [hc] at h
      · simp at h
        obtain ⟨h1, h2⟩ := h
        subst h1
        subst h2
        exact ⟨hc, by simp [cleanPatterns, hp]⟩
      · rcases hrest : compileAll compile rest with e2 | pr <;> rw [hrest] at h
        · simp at h
          subst h
          have h2 := ih hrest
          refine ⟨h2.1, ?_⟩
          simp [cleanPatterns, hp] at h2 ⊢
          right
          exact h2.2
        · simp at h

/-- A compileAll success installs exactly the trimmed, non-empty input
patterns as the raw list. -/
theorem compileAll_ok {compile : String → Except String Regexp} :
    ∀ {ps : List String} {cs : List Regexp} {rs : List String},
      compileAll compile ps = .ok (cs, rs) → rs = cleanPatterns ps := by
  intro ps
  induction ps with
  | nil =>
    intro cs rs h
    simp [compileAll] at h
    simp [cleanPatterns, h.2]
  | cons p rest ih =>
    intro cs rs h
    unfold compileAll at h
    by_cases hp : trimSpace p = ""
    · rw [if_pos hp] at h
      rw [ih h]
      simp [cleanPatterns, hp]
    · rw [if_neg hp] at h
      rcases hc : compile (trimSpace p) with e | c <;> rw [hc] at h
      · simp at h
      · rcases hrest : compileAll compile rest with e2 | pr <;> rw [hrest] at h
        · simp at h
        · rcases pr with ⟨cs2, rs2⟩
          simp at h
          obtain ⟨h1, h2⟩ := h
          subst h2
          simp [cleanPatterns, hp, ih hrest]

/-- When every surviving pattern compiles, compileAll succeeds. -/
theorem compileAll_total {compile : String → Except String Regexp} :
    ∀ {ps : List String},
      (∀ p ∈ cleanPatterns ps, ∃ c, compile p = .ok c) →
      ∃ cs rs, compileAll compile ps = .ok (cs, rs) := by
  intro ps
  induction ps with
  | nil => intro _; exact ⟨[], [], rfl⟩
  | cons p rest ih =>
    intro h
    unfold compileAll
    by_cases hp : trimSpace p = ""
    · rw [if_pos hp]
      apply ih
      intro x hx
      apply h
      simp [cleanPatterns, hp] at hx ⊢
      exact hx
    · rw [if_neg hp]
      have hhead : ∃ c, compile (trimSpace p) = .ok c := by
        apply h
        simp [cleanPatterns, hp]
      rcases hhead with ⟨c, hc⟩
      rw [hc]
      have htail : ∃ cs rs, compileAll compile rest = .ok (cs, rs) := by
        apply ih
        intro x hx
        apply h
        simp [cleanPatterns, hp] at hx ⊢
        right
        exact hx
      rcases htail with ⟨cs, rs, hrest⟩
      rw [hrest]
      exact ⟨c :: cs, trimSpace p :: rs, rfl⟩

/-- The server loop returns the first success, regardless of the error
accumulator. -/
theorem systemTry_first {exchange : Msg → String → Except String Msg} {rc : Msg} :
    ∀ (pre : List String) (s : String) (post : List String) (resp : Msg)
      (acc : Option String),
      (∀ t ∈ pre, ∃ e, exchange rc t = .error e) →
      exchange rc s = .ok resp →
      systemTry exchange rc (pre ++ s :: post) acc = .ok resp := by
  intro pre
  induction pre with
  | nil =>
    intro s post resp acc _ hs
    simp [systemTry, hs]
  | cons t ts ih =>
    intro s post resp acc hpre hs
    rcases hpre t (by simp) with ⟨e, he⟩
    simp only [List.cons_append, systemTry, he]
    exact ih s post resp (some e) (fun u hu => hpre u (by simp [hu])) hs

/-- A failing server loop means every server failed. -/
theorem systemTry_error {exchange : Msg → String → Except String Msg} {rc : Msg} :
    ∀ (l : List String) (acc : Option String) (er : SysError),
      systemTry exchange rc l acc = .error er →
      ∀ s ∈ l, ∃ e, exchange rc s = .error e := by
  intro l
  induction l with
  | nil => intro acc er h s hs; simp at hs
  | cons t ts ih =>
    intro acc er h s hs
    rcases hex : exchange rc t with e | resp
    · rcases List.mem_cons.mp hs with h1 | h1
      · subst h1; exact ⟨e, hex⟩
      · exact ih (some e) er (by simpa [systemTry, hex] using h) s h1
    · simp [systemTry, hex] at h

/-- When everything before the last server fails and the last one fails
with e, the loop reports allFailed e. -/
theorem systemTry_last {exchange : Msg → String → Except String Msg} {rc : Msg} :
    ∀ (init : List String) (lastS : String) (e : String) (acc : Option String),
      (∀ t ∈ init, ∃ e2, exchange rc t = .error e2) →
      exchange rc lastS = .error e →
      systemTry exchange rc (init ++ [lastS]) acc = .error (.allFailed e) := by
  intro init
  induction init with
  | nil =>
    intro lastS e acc _ he
    simp [systemTry, he]
  | cons t ts ih =>
    intro lastS e acc hpre he
    rcases hpre t (by simp) with ⟨e2, he2⟩
    simp only [List.cons_append, systemTry, he2]
    exact ih lastS e (some e2) (fun u hu => hpre u (by simp [hu])) he

/-- Unfolding step: a decoded payload hands over to serverQueryDecoded. -/
theorem ServerQuery_decodeOk {unpack : Wire → Except String Msg}
    {pack : Msg → Except String Wire} {ro : Option Router} {payload : Wire}
    {msg : Msg} (hu : unpack payload = .ok msg) :
    ServerQuery unpack pack ro payload = serverQueryDecoded pack ro msg := by
  unfold ServerQuery
  rw [hu]

/-- Unfolding step: a failed decode is an RPC error. -/
theorem ServerQuery_decodeErr {unpack : Wire → Except String Msg}
    {pack : Msg → Except String Wire} {ro : Option Router} {payload : Wire}
    {e : String} (hu : unpack payload = .error e) :
    ServerQuery unpack pack ro payload
      = .error ("failed to unpack DNS message: " ++ e) := by
  unfold ServerQuery
  rw [hu]

/-- Without a router, Query replies with a packed SERVFAIL. -/
theorem sqd_none {pack : Msg → Except String Wire} {msg : Msg} :
    serverQueryDecoded pack none msg
      = .ok (packOrNil pack (Msg.setRcode msg RcodeServerFailure)) := rfl

/-- With no question, Query replies with a packed SERVFAIL. -/
theorem sqd_noq {pack : Msg → Except String Wire} {r : Router} {msg : Msg}
    (hq : msg.question = []) :
    serverQueryDecoded pack (some r) msg
      = .ok (packOrNil pack (Msg.setRcode msg RcodeServerFailure)) := by
  simp only [serverQueryDecoded, hq]

/-- On a routing error, Query replies with a packed SERVFAIL. -/
theorem sqd_routeErr {pack : Msg → Except String Wire} {r : Router} {msg : Msg}
    {q : Question} {qs : List Question} {er : RouteError}
    (hq : msg.question = q :: qs) (hr : (Router.Route r msg).1 = .error er) :
    serverQueryDecoded pack (some r) msg
      = .ok (packOrNil pack (Msg.setRcode msg RcodeServerFailure)) := by
  simp only [serverQueryDecoded, hq, hr]

/-- When the routed reply fails to re-encode, Query raises an RPC error. -/
theorem sqd_packErr {pack : Msg → Except String Wire} {r : Router} {msg : Msg}
    {q : Question} {qs : List Question} {result : RouteResult} {pe : String}
    (hq : msg.question = q :: qs) (hr : (Router.Route r msg).1 = .ok result)
    (hp : pack { result.Response with id := msg.id } = .error pe) :
    serverQueryDecoded pack (some r) msg
      = .error ("failed to pack DNS response: " ++ pe) := by
  simp only [serverQueryDecoded, hq, hr, hp]

/-- On a routed reply that re-encodes, Query returns the bytes. -/
theorem sqd_routeOk {pack : Msg → Except String Wire} {r : Router} {msg : Msg}
    {q : Question} {qs : List Question} {result : RouteResult} {w : Wire}
    (hq : msg.question = q :: qs) (hr : (Router.Route r msg).1 = .ok result)
    (hp : pack { result.Response with id := msg.id } = .ok w) :
    serverQueryDecoded pack (some r) msg = .ok w := by
  simp only [serverQueryDecoded, hq, hr, hp]

/-- A successful Route implies the request had a question. -/
theorem route_ok_question {r : Router} {msg : Msg} {result : RouteResult}
    (h : (Router.Route r msg).1 = .ok result) :
    ∃ q qs, msg.question = q :: qs := by
  unfold Router.Route at h
  rcases hq : msg.question with _ | ⟨q, qs⟩ <;> rw [hq] at h
  · simp at h
  · exact ⟨q, qs, rfl⟩

/-! ## Claims -/

/-- Claim C1: when the dot-stripped query name matches a request pattern,
the explicit resolver is configured, and its first reply contains a CNAME
whose dot-stripped target is the first (in answer order) to match a CNAME
pattern, Route re-invokes the explicit resolver with the identical
original request and returns that second reply with resolver-used equal
to the explicit resolver's name and cname-matched true; moreover, in any
single Route call whatsoever the explicit resolver is invoked at most
twice. -/
theorem claim_C1 (r : Router) (req : Msg) (q : Question) (qs : List Question)
    (m cm : Matcher) (ex : Resolver) (resp : Msg) (c : String)
    (hq : req.question = q :: qs)
    (hm : r.requestMatcher = some m)
    (hmatch : m.Match (trimSuffix q.name ".") = true)
    (hex : r.explicitResolver = some ex)
    (hcm : r.cnameMatcher = some cm)
    (hres : ex.resolve req = .ok resp)
    (hfind : findMatchingCNAME cm (ExtractCNAME resp) = some c) :
    Router.Route r req =
      (.ok ⟨resp, ex.name, true, true, m.MatchingPattern (trimSuffix q.name "."),
            cm.MatchingPattern c⟩,
       [.explicitCall req, .explicitCall req]) ∧
    ∀ (r2 : Router) (req2 : Msg),
      ((Router.Route r2 req2).2.countP isExplicitCall) ≤ 2 := by
  constructor
  · have hH := hasCNAME_of_find hfind
    unfold Router.Route
    rw [hq]
    simp only [shouldUseRequestMatcher, hm, hmatch, if_true]
    unfold routeMatchedRequest
    simp only [hm, hex, hres]
    unfold processExplicitResponse
    rw [hH]
    simp only [Bool.not_true, if_neg (by simp : ¬ (¬ true = true)), hcm]
    unfold processCNAMEMatch
    simp only [hfind]
    unfold handleMatchedCNAME
    simp only [hres]
    simp [mkResult, initFlags]
  · exact routeLog

/-- Witness for claim C1 at the concrete fixtures: the hypotheses hold
and Route resolves through the explicit resolver twice. -/
theorem claim_C1_witness :
    fxReq.question = [fxQ] ∧
    fxReqMatcher.Match (trimSuffix fxQ.name ".") = true ∧
    fxExplicit.resolve fxReq = .ok fxRespC ∧
    findMatchingCNAME fxCnameMatcher (ExtractCNAME fxRespC) = some "cdn.provider.net" ∧
    Router.Route fxRouter1 fxReq =
      (.ok ⟨fxRespC, "explicit", true, true, "req-pat", "cname-pat"⟩,
       [.explicitCall fxReq, .explicitCall fxReq]) := by
  refine ⟨rfl, by decide, rfl, by decide, ?_⟩
  exact (claim_C1 fxRouter1 fxReq fxQ [] fxReqMatcher fxCnameMatcher fxExplicit
    fxRespC "cdn.provider.net" rfl rfl (by decide) rfl rfl rfl (by decide)).1

/-- Claim C2: when the request name matches, the explicit resolver is
configured and answers, and either its answer has no CNAME record or the
CNAME matcher is absent, Route invokes the no-cname-response resolver and
returns its reply with resolver-used equal to that resolver's name and
cname-matched false. In particular an absent CNAME matcher routes to
no-cname-response, not to no-cname-match. -/
theorem claim_C2 (r : Router) (req : Msg) (q : Question) (qs : List Question)
    (m : Matcher) (ex ncr : Resolver) (resp nresp : Msg)
    (hq : req.question = q :: qs)
    (hm : r.requestMatcher = some m)
    (hmatch : m.Match (trimSuffix q.name ".") = true)
    (hex : r.explicitResolver = some ex)
    (hres : ex.resolve req = .ok resp)
    (hnc : HasCNAME resp = false ∨ r.cnameMatcher = none)
    (hncr : r.noCnameResponseResolver = some ncr)
    (hnres : ncr.resolve req = .ok nresp) :
    Router.Route r req =
      (.ok ⟨nresp, ncr.name, true, false, m.MatchingPattern (trimSuffix q.name "."), ""⟩,
       [.explicitCall req, .noCnameResponseCall req]) := by
  unfold Router.Route
  rw [hq]
  simp only [shouldUseRequestMatcher, hm, hmatch, if_true]
  unfold routeMatchedRequest
  simp only [hm, hex, hres]
  rw [perNoCname hnc]
  unfold useNoCnameResponseResolver
  simp only [hncr, hnres]
  simp [mkResult, initFlags]

/-- Witness for claim C2 at the concrete fixtures: the explicit answer
has no CNAME, so the no-cname-response resolver produces the reply. -/
theorem claim_C2_witness :
    fxReqMatcher.Match (trimSuffix fxQ.name ".") = true ∧
    HasCNAME fxRespA = false ∧
    Router.Route fxRouter2 fxReq =
      (.ok ⟨fxRespA, "no-cname-response", true, false, "req-pat", ""⟩,
       [.explicitCall fxReq, .noCnameResponseCall fxReq]) := by
  refine ⟨by decide, by decide, ?_⟩
  exact claim_C2 fxRouter2 fxReq fxQ [] fxReqMatcher fxExplicitNoC
    fxNoCnameResponse fxRespA fxRespA rfl rfl (by decide) rfl rfl
    (Or.inl (by decide)) rfl rfl

/-- Claim C3: when the request name matches but the explicit resolver
slot is absent, Route falls back to the no-cname-response resolver; and
when that slot is also absent after NewRouter's legacy filling (no
no-cname-response resolver and no legacy system resolver configured),
Route returns the no-resolver-available-for-matched-pattern error with an
empty invocation log — in particular the passthrough resolver is never
consulted. -/
theorem claim_C3 :
    (∀ (r : Router) (req : Msg) (q : Question) (qs : List Question)
        (m : Matcher) (ncr : Resolver) (nresp : Msg),
      req.question = q :: qs →
      r.requestMatcher = some m →
      m.Match (trimSuffix q.name ".") = true →
      r.explicitResolver = none →
      r.noCnameResponseResolver = some ncr →
      ncr.resolve req = .ok nresp →
      Router.Route r req =
        (.ok ⟨nresp, ncr.name, true, false, m.MatchingPattern (trimSuffix q.name "."), ""⟩,
         [.noCnameResponseCall req])) ∧
    (∀ (cfg : RouterConfig) (req : Msg) (q : Question) (qs : List Question)
        (m : Matcher),
      req.question = q :: qs →
      cfg.RequestMatcher = some m →
      m.Match (trimSuffix q.name ".") = true →
      cfg.ExplicitResolver = none →
      cfg.NoCnameResponseResolver = none →
      cfg.SystemResolver = none →
      Router.Route (NewRouter cfg) req = (.error .noResolverForMatched, [])) := by
  constructor
  · intro r req q qs m ncr nresp hq hm hmatch hex hncr hnres
    unfold Router.Route
    rw [hq]
    simp only [shouldUseRequestMatcher, hm, hmatch, if_true]
    unfold routeMatchedRequest
    simp only [hm, hex]
    unfold useFallbackResolver useNoCnameResponseResolver
    simp only [hncr, hnres]
    simp [mkResult, initFlags]
  · intro cfg req q qs m hq hm hmatch hex hncr hsys
    unfold Router.Route
    rw [hq]
    simp only [NewRouter, shouldUseRequestMatcher, hm, hmatch, if_true]
    unfold routeMatchedRequest
    simp only [NewRouter, hm, hex, hncr, hsys]
    unfold useFallbackResolver useNoCnameResponseResolver
    simp only [hncr, hsys]

/-- Witness for claim C3: the fallback at fxRouter3, and the error at
the bare configuration (which does hold a passthrough resolver, left
unconsulted). -/
theorem claim_C3_witness :
    Router.Route fxRouter3 fxReq =
      (.ok ⟨fxRespA, "no-cname-response", true, false, "req-pat", ""⟩,
       [.noCnameResponseCall fxReq]) ∧
    fxCfgBare.PassthroughResolver = some fxPassthrough ∧
    Router.Route (NewRouter fxCfgBare) fxReq = (.error .noResolverForMatched, []) := by
  refine ⟨?_, rfl, ?_⟩
  · exact claim_C3.1 fxRouter3 fxReq fxQ [] fxReqMatcher fxNoCnameResponse
      fxRespA rfl rfl (by decide) rfl rfl rfl
  · exact claim_C3.2 fxCfgBare fxReq fxQ [] fxReqMatcher rfl rfl (by decide)
      rfl rfl rfl

/-- Counterexample to claim C4 as stated: two requests whose first
question names differ only in letter case (`www.example.com.` versus
`WWW.example.com.`) are routed differently by the same router — the
lowercase one through the explicit resolver with both flags set, the
uppercase one through the passthrough resolver with no flag set — because
no lowercasing happens before matching. -/
theorem claim_C4_counterexample :
    fxReq = { fxReqUpper with question := [⟨"www.example.com.", 1⟩] } ∧
    (Router.Route fxRouter1 fxReq).1 =
      .ok ⟨fxRespC, "explicit", true, true, "req-pat", "cname-pat"⟩ ∧
    (Router.Route fxRouter1 fxReqUpper).1 =
      .ok ⟨fxRespA, "passthrough", false, false, "", ""⟩ ∧
    ("explicit" : String) ≠ "passthrough" :=
  ⟨rfl, rfl, rfl, by decide⟩

/-- Claim C4 amended: the string tested against the request matcher is
the dot-stripped name with its letter case preserved (the returned
request-matched flag always equals the matcher decision on exactly that
string), and each CNAME target is likewise tested in dot-stripped form;
requests differing only in letter case need not route the same way. -/
theorem claim_C4 :
    (∀ (r : Router) (req : Msg) (q : Question) (qs : List Question)
        (res : RouteResult),
      req.question = q :: qs →
      (Router.Route r req).1 = .ok res →
      res.RequestMatched = shouldUseRequestMatcher r (trimSuffix q.name ".")) ∧
    (∀ (cm : Matcher) (ts : List String),
      findMatchingCNAME cm ts =
        (ts.map fun t => trimSuffix t ".").find? cm.Match) := by
  constructor
  · intro r req q qs res hq h
    unfold Router.Route at h
    rw [hq] at h
    simp only at h
    cases hS : shouldUseRequestMatcher r (trimSuffix q.name ".") <;>
      simp only [hS, if_true, if_false, Bool.false_eq_true] at h
    · exact (routePT_ok h).1
    · exact routeMR_ok h
  · intro cm ts
    induction ts with
    | nil => rfl
    | cons t rest ih =>
      simp only [findMatchingCNAME, List.map, List.find?]
      cases hM : cm.Match (trimSuffix t ".") <;> simp [hM, ih]

/-- Witness for amended claim C4 at the concrete fixtures. -/
theorem claim_C4_witness :
    ((Router.Route fxRouter1 fxReq).1 =
        .ok ⟨fxRespC, "explicit", true, true, "req-pat", "cname-pat"⟩ ∧
      (⟨fxRespC, "explicit", true, true, "req-pat", "cname-pat"⟩ : RouteResult).RequestMatched
        = shouldUseRequestMatcher fxRouter1 (trimSuffix fxQ.name ".")) ∧
    findMatchingCNAME fxCnameMatcher ["other.net.", "cdn.provider.net."]
      = (["other.net.", "cdn.provider.net."].map fun t => trimSuffix t ".").find?
          fxCnameMatcher.Match := by
  refine ⟨⟨rfl, ?_⟩, ?_⟩
  · exact claim_C4.1 fxRouter1 fxReq fxQ []
      ⟨fxRespC, "explicit", true, true, "req-pat", "cname-pat"⟩ rfl rfl
  · exact claim_C4.2 fxCnameMatcher ["other.net.", "cdn.provider.net."]

/-- Claim C5: an UpdatePatterns call on which some surviving pattern
fails to compile returns an error naming that offending source string and
leaves the matcher — and hence Patterns() — unchanged; a successful call
replaces the live list with exactly the trimmed non-empty input patterns;
and when every surviving pattern compiles the call does succeed. -/
theorem claim_C5 :
    (∀ (compile : String → Except String Regexp) (m : RegexMatcher)
        (ps : List String) (src msg : String) (m2 : RegexMatcher),
      m.UpdatePatterns compile ps = (.error (.invalidPattern src msg), m2) →
      m2 = m ∧ m2.Patterns = m.Patterns ∧ compile src = .error msg ∧
        src ∈ cleanPatterns ps) ∧
    (∀ (compile : String → Except String Regexp) (m : RegexMatcher)
        (ps : List String) (m2 : RegexMatcher),
      m.UpdatePatterns compile ps = (.ok (), m2) →
      m2.Patterns = cleanPatterns ps) ∧
    (∀ (compile : String → Except String Regexp) (m : RegexMatcher)
        (ps : List String),
      (∀ p ∈ cleanPatterns ps, ∃ c, compile p = .ok c) →
      ∃ m2, m.UpdatePatterns compile ps = (.ok (), m2)) := by
  refine ⟨?_, ?_, ?_⟩
  · intro compile m ps src msg m2 h
    unfold RegexMatcher.UpdatePatterns at h
    rcases hca : compileAll compile ps with e | pr <;> rw [hca] at h
    · simp at h
      obtain ⟨h1, h2⟩ := h
      subst h2
      subst h1
      have h3 := compileAll_error hca
      exact ⟨rfl, rfl, h3.1, h3.2⟩
    · rcases pr with ⟨cs, rs⟩
      simp at h
  · intro compile m ps m2 h
    unfold RegexMatcher.UpdatePatterns at h
    rcases hca : compileAll compile ps with e | pr <;> rw [hca] at h
    · simp at h
    · rcases pr with ⟨cs, rs⟩
      simp at h
      rw [← h]
      exact compileAll_ok hca
  · intro compile m ps h
    rcases compileAll_total h with ⟨cs, rs, hca⟩
    refine ⟨⟨cs, rs⟩, ?_⟩
    unfold RegexMatcher.UpdatePatterns
    rw [hca]

/-- Witness for claim C5: a failing update (`[bad` does not compile)
leaves the old pattern list in force, and a fully valid update installs
the trimmed survivors. -/
theorem claim_C5_witness :
    ((fxMatcher0.UpdatePatterns fxCompile [" ", "x", "[bad"]).2 = fxMatcher0 ∧
     (fxMatcher0.UpdatePatterns fxCompile [" ", "x", "[bad"]).2.Patterns
       = fxMatcher0.Patterns ∧
     fxCompile "[bad" = .error "missing closing bracket" ∧
     "[bad" ∈ cleanPatterns [" ", "x", "[bad"]) ∧
    (fxMatcher0.UpdatePatterns fxCompile [" x ", "", "y"]).2.Patterns
      = cleanPatterns [" x ", "", "y"] ∧
    ∃ m2, fxMatcher0.UpdatePatterns fxCompile ["a"] = (.ok (), m2) := by
  refine ⟨?_, ?_, ?_⟩
  · exact claim_C5.1 fxCompile fxMatcher0 [" ", "x", "[bad"] "[bad"
      "missing closing bracket" _ rfl
  · exact claim_C5.2.1 fxCompile fxMatcher0 [" x ", "", "y"] _ rfl
  · exact claim_C5.2.2 fxCompile fxMatcher0 ["a"]
      (by
        intro p hp
        rw [show cleanPatterns ["a"] = ["a"] from rfl] at hp
        simp at hp
        subst hp
        exact ⟨⟨fun t => t == "a"⟩, rfl⟩)

/-- Counterexample to claim C10 as stated: for the domain string `a.`
(which itself ends in a dot) and a single pattern matching exactly `a`,
Match and MatchingPattern disagree between `a.` and `a..`, because the
matcher strips exactly one trailing dot. -/
theorem claim_C10_counterexample :
    fxMatcherA.Match "a." = true ∧
    fxMatcherA.Match ("a." ++ ".") = false ∧
    fxMatcherA.MatchingPattern "a." = "pat-a" ∧
    fxMatcherA.MatchingPattern ("a." ++ ".") = "" := by
  refine ⟨by decide, by decide, by decide, by decide⟩

/-- Claim C10 amended: for every domain string d that does not already
end in a dot, Match(d) = Match(d + ".") and MatchingPattern(d) =
MatchingPattern(d + "."): the matcher strips one trailing dot itself, so
callers that do not pre-strip obtain the same decision. -/
theorem claim_C10 (m : RegexMatcher) (d : String)
    (h : (".").data.isSuffixOf d.data = false) :
    m.Match d = m.Match (d ++ ".") ∧
    m.MatchingPattern d = m.MatchingPattern (d ++ ".") := by
  constructor <;>
    simp only [RegexMatcher.Match, RegexMatcher.MatchingPattern,
      trimSuffix_no_dot d h, trimSuffix_append_dot d]

/-- Witness for amended claim C10 at a dot-free domain. -/
theorem claim_C10_witness :
    (".").data.isSuffixOf ("www.example.com").data = false ∧
    (fxMatcherA.Match "www.example.com" = fxMatcherA.Match ("www.example.com" ++ ".") ∧
     fxMatcherA.MatchingPattern "www.example.com"
       = fxMatcherA.MatchingPattern ("www.example.com" ++ ".")) :=
  ⟨by decide, claim_C10 fxMatcherA "www.example.com" (by decide)⟩

/-- Counterexample to claim C6 as stated: a payload that decodes
successfully still produces an RPC error when the routed reply fails to
re-encode, so decoding failure is not the only RPC-error condition. -/
theorem claim_C6_counterexample :
    fxUnpack [0] = .ok fxReq ∧
    ServerQuery fxUnpack fxPackFail (some fxRouter1) [0]
      = .error "failed to pack DNS response: too long" :=
  ⟨rfl, rfl⟩

/-- Claim C6 amended: the RPC-framed Query errors only on a payload that
fails to decode or on a routed reply that fails to re-encode; every
successfully decoded message with a router error or no question yields
the packed SERVFAIL reply (which carries SERVFAIL and the request id);
and a router success whose reply re-encodes yields those bytes, the
reply id having been set to the request id. -/
theorem claim_C6 :
    (∀ (unpack : Wire → Except String Msg) (pack : Msg → Except String Wire)
        (ro : Option Router) (payload : Wire) (e : String),
      ServerQuery unpack pack ro payload = .error e →
      (∃ e0, unpack payload = .error e0) ∨
      (∃ msg r result, unpack payload = .ok msg ∧ ro = some r ∧
        (Router.Route r msg).1 = .ok result ∧
        ∃ pe, pack { result.Response with id := msg.id } = .error pe)) ∧
    (∀ (unpack : Wire → Except String Msg) (pack : Msg → Except String Wire)
        (r : Router) (msg : Msg) (payload : Wire) (er : RouteError),
      unpack payload = .ok msg →
      (Router.Route r msg).1 = .error er →
      ServerQuery unpack pack (some r) payload
        = .ok (packOrNil pack (Msg.setRcode msg RcodeServerFailure))) ∧
    (∀ (unpack : Wire → Except String Msg) (pack : Msg → Except String Wire)
        (ro : Option Router) (msg : Msg) (payload : Wire),
      unpack payload = .ok msg →
      (msg.question = [] ∨ ro = none) →
      ServerQuery unpack pack ro payload
        = .ok (packOrNil pack (Msg.setRcode msg RcodeServerFailure))) ∧
    (∀ (unpack : Wire → Except String Msg) (pack : Msg → Except String Wire)
        (r : Router) (msg : Msg) (payload : Wire) (result : RouteResult) (w : Wire),
      unpack payload = .ok msg →
      (Router.Route r msg).1 = .ok result →
      pack { result.Response with id := msg.id } = .ok w →
      ServerQuery unpack pack (some r) payload = .ok w) ∧
    (∀ msg : Msg,
      (Msg.setRcode msg RcodeServerFailure).rcode = RcodeServerFailure ∧
      (Msg.setRcode msg RcodeServerFailure).id = msg.id) := by
  refine ⟨?_, ?_, ?_, ?_, ?_⟩
  · intro unpack pack ro payload e h
    rcases hu : unpack payload with e0 | msg
    · exact .inl ⟨e0, rfl⟩
    · rw [ServerQuery_decodeOk hu] at h
      rcases ro with _ | r
      · rw [sqd_none] at h
        simp at h
      · rcases hq : msg.question with _ | ⟨q, qs⟩
        · rw [sqd_noq hq] at h
          simp at h
        · rcases hr : (Router.Route r msg).1 with er | result
          · rw [sqd_routeErr hq hr] at h
            simp at h
          · rcases hp : pack { result.Response with id := msg.id } with pe | w
            · right
              exact ⟨msg, r, result, rfl, rfl, hr, pe, hp⟩
            · rw [sqd_routeOk hq hr hp] at h
              simp at h
  · intro unpack pack r msg payload er hu hroute
    rw [ServerQuery_decodeOk hu]
    rcases hq : msg.question with _ | ⟨q, qs⟩
    · exact sqd_noq hq
    · exact sqd_routeErr hq hroute
  · intro unpack pack ro msg payload hu hcase
    rw [ServerQuery_decodeOk hu]
    rcases hcase with hcase | hcase
    · rcases ro with _ | r
      · exact sqd_none
      · exact sqd_noq hcase
    · rw [hcase]
      exact sqd_none
  · intro unpack pack r msg payload result w hu hroute hpack
    obtain ⟨q, qs, hq⟩ := route_ok_question hroute
    rw [ServerQuery_decodeOk hu]
    exact sqd_routeOk hq hroute hpack
  · intro msg
    exact ⟨rfl, rfl⟩

/-- Witness for amended claim C6 at the concrete fixtures: a routed
reply re-encoded with the request id, a SERVFAIL on a routing error, a
SERVFAIL without a router, and the pack-failure RPC error. -/
theorem claim_C6_witness :
    ServerQuery fxUnpack fxPackOk (some fxRouter1) [0] = .ok [7] ∧
    ServerQuery fxUnpack fxPackOk (some (NewRouter fxCfgBare)) [0]
      = .ok (packOrNil fxPackOk (Msg.setRcode fxReq RcodeServerFailure)) ∧
    ServerQuery fxUnpack fxPackOk none [0]
      = .ok (packOrNil fxPackOk (Msg.setRcode fxReq RcodeServerFailure)) ∧
    ((∃ e0, fxUnpack [0] = .error e0) ∨
      (∃ msg r result, fxUnpack [0] = .ok msg ∧ (some fxRouter1) = some r ∧
        (Router.Route r msg).1 = .ok result ∧
        ∃ pe, fxPackFail { result.Response with id := msg.id } = .error pe)) := by
  refine ⟨?_, ?_, ?_, ?_⟩
  · exact claim_C6.2.2.2.1 fxUnpack fxPackOk fxRouter1 fxReq [0]
      ⟨fxRespC, "explicit", true, true, "req-pat", "cname-pat"⟩ [7] rfl rfl rfl
  · exact claim_C6.2.1 fxUnpack fxPackOk (NewRouter fxCfgBare) fxReq [0]
      .noResolverForMatched rfl rfl
  · exact claim_C6.2.2.1 fxUnpack fxPackOk none fxReq [0] rfl (.inr rfl)
  · exact claim_C6.1 fxUnpack fxPackFail (some fxRouter1) [0]
      "failed to pack DNS response: too long" rfl

/-- Claim C7: every reply the datagram/stream handler writes — the
routed response as well as the SERVFAIL built on a routing error —
carries the inbound request's transaction id. -/
theorem claim_C7 (r : Router) (req : Msg) :
    (handleRequestReply r req).id = req.id := by
  unfold handleRequestReply
  split
  · rfl
  · rfl

/-- Claim C9: the system resolver tries its servers strictly in list
order and returns the first non-error reply immediately; it errors only
when every server in the list errs, and for a non-empty list that error
wraps the last server's failure. -/
theorem claim_C9 :
    (∀ (exchange : Msg → String → Except String Msg) (r : SystemResolver)
        (req : Msg) (pre : List String) (s : String) (post : List String)
        (resp : Msg),
      r.servers = pre ++ s :: post →
      (∀ t ∈ pre, ∃ e, exchange { req with recursionDesired := true } t = .error e) →
      exchange { req with recursionDesired := true } s = .ok resp →
      SystemResolver.Resolve exchange r req = .ok resp) ∧
    (∀ (exchange : Msg → String → Except String Msg) (r : SystemResolver)
        (req : Msg) (er : SysError),
      SystemResolver.Resolve exchange r req = .error er →
      ∀ s ∈ r.servers, ∃ e, exchange { req with recursionDesired := true } s = .error e) ∧
    (∀ (exchange : Msg → String → Except String Msg) (r : SystemResolver)
        (req : Msg) (init : List String) (lastS : String) (e : String),
      r.servers = init ++ [lastS] →
      (∀ t ∈ init, ∃ e2, exchange { req with recursionDesired := true } t = .error e2) →
      exchange { req with recursionDesired := true } lastS = .error e →
      SystemResolver.Resolve exchange r req = .error (.allFailed e)) := by
  refine ⟨?_, ?_, ?_⟩
  · intro exchange r req pre s post resp hsv hpre hs
    unfold SystemResolver.Resolve
    rw [hsv]
    exact systemTry_first pre s post resp none hpre hs
  · intro exchange r req er h
    unfold SystemResolver.Resolve at h
    exact systemTry_error r.servers none er h
  · intro exchange r req init lastS e hsv hpre he
    unfold SystemResolver.Resolve
    rw [hsv]
    exact systemTry_last init lastS e none hpre he

/-- Witness for claim C9 at the concrete fixtures: three servers of which
only the middle answers, and a two-server list that fails entirely,
reporting the last failure. -/
theorem claim_C9_witness :
    SystemResolver.Resolve fxExchange fxSys fxReq = .ok fxRespA ∧
    (∃ e, fxExchange { fxReq with recursionDesired := true } "10.0.0.1:53" = .error e) ∧
    SystemResolver.Resolve fxExchange fxSysBad fxReq = .error (.allFailed "timeout3") := by
  refine ⟨?_, ?_, ?_⟩
  · exact claim_C9.1 fxExchange fxSys fxReq ["10.0.0.1:53"] "10.0.0.2:53"
      ["10.0.0.3:53"] fxRespA rfl
      (by
        intro t ht
        simp at ht
        subst ht
        exact ⟨"timeout1", rfl⟩)
      rfl
  · exact claim_C9.2.1 fxExchange fxSysBad fxReq (.allFailed "timeout3") rfl
      "10.0.0.1:53" (by simp [fxSysBad])
  · exact claim_C9.2.2 fxExchange fxSysBad fxReq ["10.0.0.1:53"] "10.0.0.9:53"
      "timeout3" rfl
      (by
        intro t ht
        simp at ht
        subst ht
        exact ⟨"timeout1", rfl⟩)
      rfl

/-- Claim C8: every RouteResult a Route call returns satisfies the
invariant that a true cname-matched flag implies a true request-matched
flag. -/
theorem claim_C8 (r : Router) (req : Msg) (res : RouteResult)
    (h : (Router.Route r req).1 = .ok res) (hc : res.CNAMEMatched = true) :
    res.RequestMatched = true := by
  unfold Router.Route at h
  split at h
  · simp at h
  · simp only at h
    split at h
    · exact routeMR_ok h
    · rw [(routePT_ok h).2] at hc
      exact absurd hc (by simp)

/-- Witness for claim C8 at the concrete fixtures. -/
theorem claim_C8_witness :
    (Router.Route fxRouter1 fxReq).1 =
      .ok ⟨fxRespC, "explicit", true, true, "req-pat", "cname-pat"⟩ ∧
    (⟨fxRespC, "explicit", true, true, "req-pat", "cname-pat"⟩ : RouteResult).RequestMatched = true := by
  refine ⟨rfl, ?_⟩
  exact claim_C8 fxRouter1 fxReq _ rfl rfl

end NSS
